import Mathlib

/-!
Verification of the authentication subsystem of the MERN blog application.

Shallow embedding of:
  - src/server/src/utils/ApiError.js            (ApiError)
  - src/unnamed/part_004                        (mongoose User model)
  - src/unnamed/part_007                        (protect / refresh middleware)
  - src/server/src/controllers/authController.js (register, login, refresh, reset)
  - src/server/src/routes/auth.js               (route mounting order)
  - src/unnamed/part_009                        (global error handler)
  - src/client/src/lib axios module and src/client/src/contexts/AuthContext.tsx
    (client 401 interceptors)

Timestamps are epoch milliseconds as Nat; JWT clocks are epoch seconds
(milliseconds divided by 1000, as both jsonwebtoken and the source compute
them with integer truncation, which on nonnegative values is Nat division).

Cryptographic one-way functions (sha256 hex digests, bcrypt) are modelled as
injective executable encodings: the only properties of them the source relies
on are determinism and (idealized) collision freedom, i.e. injectivity.
-/

namespace MernAuth

/-- A JavaScript value as it appears in the dynamically typed fields of
`ApiError`: the source passes sometimes a number and sometimes a string in the
same constructor position. -/
inductive JVal where
  | s : String → JVal
  | n : Nat → JVal
deriving DecidableEq, Repr

/-- src/server/src/utils/ApiError.js. The constructor signature is
`constructor(statusCode, message, ...)`: the FIRST positional argument is the
status code, the SECOND the message. Call sites in the embedding keep the
exact argument order of the corresponding JS `new ApiError(...)` call, so a
site that passes the message first ends up with the message in `statusCode`,
exactly as in the source. -/
structure ApiError where
  statusCode : JVal
  message : JVal
deriving DecidableEq, Repr

/-- src/unnamed/part_009 `globalErrorHandler`: the HTTP status it emits is
`res.status(err.statusCode || 500)`. A missing (here: empty-string) status
falls back to 500; a non-numeric truthy statusCode is handed to
`res.status` unchanged, and node cannot emit a non-numeric status line
(`ERR_HTTP_INVALID_STATUS_CODE`), modelled as `none`. -/
def httpStatusOf (e : ApiError) : Option Nat :=
  match e.statusCode with
  | .n k => some k
  | .s str => if str == "" then some 500 else none

/-- Model of `crypto.createHash("sha256").update(s).digest("hex")`: an
injective executable encoding (prepends a marker character). -/
def sha256Hex (s : String) : String := String.mk ('#' :: s.data)

/-- Model of `bcrypt.hash(s, 12)` (and of the stored password hash):
an injective executable encoding (prepends a marker character). -/
def bcryptHash (s : String) : String := String.mk ('$' :: s.data)

theorem sha256Hex_injEq {a b : String} (h : sha256Hex a = sha256Hex b) : a = b := by
  have hd : a.data = b.data := by
    have := congrArg String.data h
    simpa [sha256Hex] using this
  cases a
  cases b
  exact congrArg String.mk hd

theorem sha256Hex_ne {a b : String} (h : a ≠ b) : sha256Hex a ≠ sha256Hex b :=
  fun hc => h (sha256Hex_injEq hc)

/-- src/unnamed/part_004: the persisted user document — exactly the schema
paths relevant to the authentication claims (token fields hold sha256
digests, never plaintext). NOTE: `resetPasswordToken`/`resetPasswordExpire`
are deliberately NOT fields: they are not paths of the userSchema (which
defines `passwordResetToken`/`passwordResetExpires`), so under the default
mongoose strict mode assignments to them are never persisted by `save()`. -/
structure UserDoc where
  id : String
  name : String
  email : String
  password : String
  role : String
  isEmailVerified : Bool
  isActive : Bool
  failedLoginAttempts : Nat
  accountLockedUntil : Option Nat
  refreshToken : Option String
  refreshTokenExpire : Option Nat
  passwordResetToken : Option String
  passwordResetExpires : Option Nat
  emailVerificationToken : Option String
  emailVerificationExpires : Option Nat
  passwordChangedAt : Option Nat
  lastLogin : Option Nat
deriving DecidableEq, Repr

/-- part_004 `matchPassword`: `bcrypt.compare(candidate, this.password)`. -/
def matchPassword (u : UserDoc) (candidate : String) : Bool :=
  u.password == bcryptHash candidate

def jwtIssuer : String := "mern-blog-api"

def jwtAudience : String := "mern-blog-client"

/-- `config.jwt.accessToken.secret` (an opaque deployment string). -/
def accessTokenSecret : String := "JWT_ACCESS_TOKEN_SECRET"

/-- `config.jwt.accessToken.expiresIn` is "15m" (part_010), i.e. 900 seconds. -/
def accessTokenExpiresSec : Nat := 15 * 60

structure JwtPayload where
  id : String
  role : String
  iat : Nat
  exp : Nat
deriving DecidableEq, Repr

/-- A bearer token in transit: either a token signed by some issuer with some
secret, or a malformed string. -/
inductive AccessToken where
  | signed (payload : JwtPayload) (secret issuer audience : String)
  | malformed
deriving DecidableEq, Repr

inductive VerifyOutcome where
  | ok (p : JwtPayload)
  | expired
  | invalid
deriving DecidableEq, Repr

/-- `jwt.verify(token, secret, { issuer, audience })` at clock `nowSec`:
signature first, then expiry (`TokenExpiredError` when `exp <= now`), then
audience/issuer claims, matching the check order of jsonwebtoken. -/
def jwtVerify (t : AccessToken) (secret issuer audience : String) (nowSec : Nat) :
    VerifyOutcome :=
  match t with
  | .malformed => .invalid
  | .signed p s i a =>
    if s == secret then
      if p.exp ≤ nowSec then .expired
      else if i == issuer && a == audience then .ok p
      else .invalid
    else .invalid

/-- part_004 `getSignedJwtToken`: signs `{ id, role }` with the access secret,
issuer `mern-blog-api`, audience `mern-blog-client`, expiry 15 minutes.
`iat` is the signing clock in whole seconds. -/
def getSignedJwtToken (u : UserDoc) (nowMs : Nat) : AccessToken :=
  .signed ⟨u.id, u.role, nowMs / 1000, nowMs / 1000 + accessTokenExpiresSec⟩
    accessTokenSecret jwtIssuer jwtAudience

/-- part_004 `getRefreshToken`: `tok` stands for the fresh
`crypto.randomBytes(40).toString("hex")` value; the method stores its sha256
digest plus a 7-day expiry on the document and returns the plaintext. -/
def getRefreshToken (u : UserDoc) (tok : String) (nowMs : Nat) : UserDoc × String :=
  ({ u with refreshToken := some (sha256Hex tok),
            refreshTokenExpire := some (nowMs + 7 * 24 * 60 * 60 * 1000) }, tok)

/-- part_004 pre-save hooks for a modified, non-new password (lines 124-144):
bcrypt-hash the new password and set `passwordChangedAt := Date.now() - 1000`
(backdated by one second). -/
def applyPasswordChangeHooks (u : UserDoc) (newPassword : String) (nowMs : Nat) : UserDoc :=
  { u with password := bcryptHash newPassword,
           passwordChangedAt := some (nowMs - 1000) }

/-- part_004 `isAccountLocked` (lines 250-262). Dead code: no route or
controller ever calls it (the login controller checks the password directly).
Embedded to document the unwired lockout machinery. Returns the possibly
lazily-reset document together with the boolean result. -/
def isAccountLocked (u : UserDoc) (nowMs : Nat) : UserDoc × Bool :=
  match u.accountLockedUntil with
  | some t =>
    if nowMs < t then (u, true)
    else if 5 ≤ u.failedLoginAttempts then
      ({ u with failedLoginAttempts := 0, accountLockedUntil := none }, false)
    else (u, false)
  | none =>
    if 5 ≤ u.failedLoginAttempts then
      ({ u with failedLoginAttempts := 0, accountLockedUntil := none }, false)
    else (u, false)

/-- part_004 `incrementLoginAttempts` (lines 264-279). Dead code: never called
by any route or controller; embedded to document the unwired lockout
machinery. -/
def incrementLoginAttempts (u : UserDoc) (nowMs : Nat) : UserDoc :=
  match u.accountLockedUntil with
  | some t =>
    if nowMs < t then u
    else if 5 ≤ u.failedLoginAttempts + 1 then
      { u with failedLoginAttempts := u.failedLoginAttempts + 1,
               accountLockedUntil := some (nowMs + 30 * 60 * 1000) }
    else { u with failedLoginAttempts := u.failedLoginAttempts + 1 }
  | none =>
    if 5 ≤ u.failedLoginAttempts + 1 then
      { u with failedLoginAttempts := u.failedLoginAttempts + 1,
               accountLockedUntil := some (nowMs + 30 * 60 * 1000) }
    else { u with failedLoginAttempts := u.failedLoginAttempts + 1 }

abbrev UserDb := List UserDoc

/-- Mongo `{ field: { $gt: Date.now() } }`: the field must exist and be
strictly greater than the clock. -/
def expireAfter (expire? : Option Nat) (nowMs : Nat) : Bool :=
  match expire? with
  | some e => decide (nowMs < e)
  | none => false

def findByEmail (db : UserDb) (email : String) : Option UserDoc :=
  db.find? (fun u => u.email == email)

def findById (db : UserDb) (id : String) : Option UserDoc :=
  db.find? (fun u => u.id == id)

/-- `User.findOne({ refreshToken: hashed, refreshTokenExpire: { $gt: Date.now() } })`. -/
def findByRefreshHash (db : UserDb) (hash : String) (nowMs : Nat) : Option UserDoc :=
  db.find? (fun u => u.refreshToken == some hash && expireAfter u.refreshTokenExpire nowMs)

/-- Persisting a loaded-and-mutated document (`user.save()`): replaces the
document with the same id. -/
def saveUser (db : UserDb) (u : UserDoc) : UserDb :=
  db.map (fun v => if v.id == u.id then u else v)

/-- JS truthiness of an optional string (undefined and the empty string are
falsy). -/
def truthyStr (s? : Option String) : Bool :=
  match s? with
  | some s => s != ""
  | none => false

/-- JS `a || b` on optional strings (empty string falls through to `b`). -/
def jsOr (a b : Option String) : Option String :=
  match a with
  | some x => if x == "" then b else some x
  | none => b

/-- The request as seen by the server authentication path. `bearerToken` is
the token carried in an `Authorization: Bearer <t>` header (`none` covers
both a missing header and a header not starting with `Bearer`);
`cookieAccessToken`/`cookieRefreshToken` are the session cookies;
`bodyRefreshToken` is `req.body.refreshToken`; `acceptHeader` is the raw
`Accept` header value. -/
structure SrvReq where
  bearerToken : Option AccessToken
  cookieAccessToken : Option AccessToken
  cookieRefreshToken : Option String
  bodyRefreshToken : Option String
  acceptHeader : Option String
deriving DecidableEq, Repr

/-- Outcome of the server gate for one request. `deny` records the `ApiError`
passed to `next` and whether both session cookies were cleared; `session` is
the middleware answering the request itself with a fresh token pair. -/
inductive GateOutcome where
  | proceed (u : UserDoc)
  | deny (e : ApiError) (cookiesCleared : Bool)
  | session (status : Nat) (access : AccessToken) (refresh : String) (u : UserDoc)
deriving DecidableEq, Repr

def GateOutcome.isProceed : GateOutcome → Bool
  | .proceed _ => true
  | _ => false

def GateOutcome.isSession : GateOutcome → Bool
  | .session _ _ _ _ => true
  | _ => false

structure GateResult where
  db : UserDb
  out : GateOutcome
deriving DecidableEq, Repr

/-- part_007 lines 83-165, the middleware-internal `refreshToken` helper.
`freshTok` models the fresh `crypto.randomBytes(40)` value; `persistOk`
models whether `await user.save(...)` succeeds (on rejection the catch block
clears both cookies and calls `next(new ApiError(401, "Invalid refresh
token"))`). On success it either answers the request itself with the new
session (when the Accept header is exactly `application/json`) or attaches
the user and proceeds. -/
def refreshMiddleware (db : UserDb) (nowMs : Nat) (req : SrvReq) (freshTok : String)
    (persistOk : Bool) : GateResult :=
  match req.cookieRefreshToken with
  | none => ⟨db, .deny (ApiError.mk (.n 401) (.s "No refresh token provided")) true⟩
  | some rt =>
    if rt == "" then
      ⟨db, .deny (ApiError.mk (.n 401) (.s "No refresh token provided")) true⟩
    else
      match findByRefreshHash db (sha256Hex rt) nowMs with
      | none => ⟨db, .deny (ApiError.mk (.n 401) (.s "Invalid or expired refresh token")) true⟩
      | some u =>
        let access := getSignedJwtToken u nowMs
        let u2 := (getRefreshToken u freshTok nowMs).1
        if persistOk then
          let db2 := saveUser db u2
          if req.acceptHeader == some "application/json" then
            ⟨db2, .session 200 access freshTok u2⟩
          else
            ⟨db2, .proceed u2⟩
        else
          ⟨db, .deny (ApiError.mk (.n 401) (.s "Invalid refresh token")) true⟩

/-- part_007 lines 8-80, the `protect` middleware: extract the access token
from the Authorization header, falling back to the `accessToken` cookie; with
no token but a (truthy) refresh cookie, fall through to the refresh helper;
verify the token; load the user; reject inactive users and tokens issued
before the last password change; otherwise attach the user and proceed.
A verification failure that is specifically expiry falls through to the
refresh helper when a refresh cookie is present; any other failure clears
both cookies. -/
def protect (db : UserDb) (nowMs : Nat) (req : SrvReq) (freshTok : String)
    (persistOk : Bool) : GateResult :=
  let token? := match req.bearerToken with
    | some t => some t
    | none => req.cookieAccessToken
  match token? with
  | none =>
    if truthyStr req.cookieRefreshToken then
      refreshMiddleware db nowMs req freshTok persistOk
    else
      ⟨db, .deny (ApiError.mk (.n 401) (.s "Not authorized to access this route - No token")) false⟩
  | some t =>
    match jwtVerify t accessTokenSecret jwtIssuer jwtAudience (nowMs / 1000) with
    | .ok p =>
      match findById db p.id with
      | none => ⟨db, .deny (ApiError.mk (.n 401) (.s "User not found with this token")) true⟩
      | some u =>
        if !u.isActive then
          ⟨db, .deny (ApiError.mk (.n 401) (.s "User account is deactivated")) false⟩
        else
          match u.passwordChangedAt with
          | some pc =>
            if p.iat < pc / 1000 then
              ⟨db, .deny (ApiError.mk (.n 401)
                (.s "User recently changed password. Please log in again")) false⟩
            else ⟨db, .proceed u⟩
          | none => ⟨db, .proceed u⟩
    | .expired =>
      if truthyStr req.cookieRefreshToken then
        refreshMiddleware db nowMs req freshTok persistOk
      else
        ⟨db, .deny (ApiError.mk (.n 401) (.s "Not authorized, invalid token")) true⟩
    | .invalid => ⟨db, .deny (ApiError.mk (.n 401) (.s "Not authorized, invalid token")) true⟩

/-- Outcome of an auth controller action: a success response carrying the
token pair and the serialized user, or an error handed to `next`
(`cookiesCleared` records whether the handler cleared both session cookies
first). -/
inductive CtrlOut where
  | okSession (status : Nat) (access : AccessToken) (refresh : String) (u : UserDoc)
  | err (e : ApiError) (cookiesCleared : Bool)
  | raise
deriving DecidableEq, Repr

def CtrlOut.isOkSession : CtrlOut → Bool
  | .okSession _ _ _ _ => true
  | _ => false

def CtrlOut.reportedRefreshToken : CtrlOut → Option String
  | .okSession _ _ r _ => some r
  | _ => none

/-- The HTTP status the server sends for a controller outcome: a success
response carries its own status; an `ApiError` handed to `next` goes through
`httpStatusOf`; a raw raised error (`raise`) has no `statusCode`, so the
part_009 handler falls back to 500 (`err.statusCode || 500`). -/
def handlerStatusOf : CtrlOut → Option Nat
  | .okSession st _ _ _ => some st
  | .err e _ => httpStatusOf e
  | .raise => some 500

structure CtrlResult where
  db : UserDb
  out : CtrlOut
deriving DecidableEq, Repr

/-- authController.js lines 424-480 `sendTokenResponse`. NOTE: the
`user.save({ validateBeforeSave: false })` on line 432 is NOT awaited (and
`sendTokenResponse` is not async), so the success response with both tokens
is sent regardless of whether that save succeeds; only the stored state
depends on `persistOk`. The in-memory document (with the new refresh-token
hash) is what the response serializes. -/
def sendTokenResponse (db : UserDb) (u : UserDoc) (statusCode : Nat) (nowMs : Nat)
    (freshTok : String) (persistOk : Bool) : CtrlResult :=
  let access := getSignedJwtToken u nowMs
  let u2 := (getRefreshToken u freshTok nowMs).1
  let db2 := if persistOk then saveUser db u2 else db
  ⟨db2, .okSession statusCode access freshTok u2⟩

/-- authController.js lines 344-422, the dedicated refresh controller:
take the refresh token from the body, falling back to the cookie (JS `||`,
so an empty string falls through); a missing token is a 400
(`new ApiError("No refresh token provided", 400)`, message-first although
the constructor is `(statusCode, message)`). For every PRESENT token the
controller then throws: authController.js never requires `crypto` (and any
node global `crypto` is WebCrypto without `createHash`), so the
`crypto.createHash` call on line 354 raises before the lookup, and the catch
block (lines 415-421) clears both cookies and calls
`new ApiError("Failed to refresh token", 500)` — again message-first. The
lookup/rotation/response code below line 357 is unreachable. -/
def refreshTokenController (db : UserDb) (bodyTok cookieTok : Option String) : CtrlResult :=
  match jsOr bodyTok cookieTok with
  | none => ⟨db, .err (ApiError.mk (.s "No refresh token provided") (.n 400)) false⟩
  | some rt =>
    if rt == "" then
      ⟨db, .err (ApiError.mk (.s "No refresh token provided") (.n 400)) false⟩
    else
      ⟨db, .err (ApiError.mk (.s "Failed to refresh token") (.n 500)) true⟩

/-- src/server/src/routes/auth.js: `router.post("/refresh-token", ...)` is
registered on line 60, AFTER `router.use(protect)` on line 54, so every
request to the refresh endpoint passes through the gate first. Only when the
gate proceeds does the controller run (on the gate-updated store). -/
def refreshTokenEndpoint (db : UserDb) (nowMs : Nat) (req : SrvReq) (freshTok : String)
    (persistOk : Bool) : CtrlResult :=
  match protect db nowMs req freshTok persistOk with
  | ⟨db2, .proceed _⟩ =>
    refreshTokenController db2 req.bodyRefreshToken req.cookieRefreshToken
  | ⟨db2, .deny e c⟩ => ⟨db2, .err e c⟩
  | ⟨db2, .session st a r u⟩ => ⟨db2, .okSession st a r u⟩

/-- Paths of src/server/src/routes/auth.js registered after
`router.use(protect)` (line 54). -/
def protectedAuthPaths : List String :=
  ["/me", "/updatedetails", "/updatepassword", "/logout", "/refresh-token"]

/-- Paths of src/server/src/routes/auth.js registered before
`router.use(protect)`. -/
def publicAuthPaths : List String :=
  ["/register", "/login", "/verify-email/:token", "/forgotpassword", "/resetpassword/:resettoken"]

def authRouteProtected (p : String) : Bool := protectedAuthPaths.contains p

/-- authController.js lines 76-124 `login`. All four credential-style
failures construct the `ApiError` with the message FIRST although the
constructor is `(statusCode, message)`; the embedding keeps that argument
order. `saveOk` models the awaited `user.save(...)` calls (lines 98 and 116;
a rejection reaches the catch block, which responds
`new ApiError("Login failed. Please try again.", 500)`); `saveTokOk` models
the NOT-awaited save inside `sendTokenResponse`. No lockout field is ever
read or written on this path. -/
def login (db : UserDb) (nowMs : Nat) (email? password? : Option String)
    (freshTok : String) (saveOk saveTokOk : Bool) : CtrlResult :=
  if !(truthyStr email?) || !(truthyStr password?) then
    ⟨db, .err (ApiError.mk (.s "Please provide an email and password") (.n 400)) false⟩
  else
    match email? with
    | none => ⟨db, .err (ApiError.mk (.s "Please provide an email and password") (.n 400)) false⟩
    | some email =>
      match password? with
      | none => ⟨db, .err (ApiError.mk (.s "Please provide an email and password") (.n 400)) false⟩
      | some password =>
        match findByEmail db email with
        | none => ⟨db, .err (ApiError.mk (.s "Invalid credentials") (.n 401)) false⟩
        | some u =>
          if !(matchPassword u password) then
            let u2 := { u with failedLoginAttempts := u.failedLoginAttempts + 1 }
            if saveOk then
              ⟨saveUser db u2, .err (ApiError.mk (.s "Invalid credentials") (.n 401)) false⟩
            else
              ⟨db, .err (ApiError.mk (.s "Login failed. Please try again.") (.n 500)) false⟩
          else if !u.isActive then
            ⟨db, .err (ApiError.mk (.s "Your account has been deactivated") (.n 401)) false⟩
          else if !u.isEmailVerified then
            ⟨db, .err (ApiError.mk (.s "Please verify your email before logging in") (.n 401)) false⟩
          else
            let u2 := { u with failedLoginAttempts := 0, lastLogin := some nowMs }
            if saveOk then
              sendTokenResponse (saveUser db u2) u2 200 nowMs freshTok saveTokOk
            else
              ⟨db, .err (ApiError.mk (.s "Login failed. Please try again.") (.n 500)) false⟩

/-- Outcome of a controller action that answers with a plain message. -/
inductive SimpleOut where
  | okMsg (status : Nat) (message : String)
  | err (e : ApiError)
deriving DecidableEq, Repr

/-- authController.js lines 171-214 `forgotPassword`: find the user by email
(404 otherwise, message-first `ApiError`), call the effective
the effective `getResetPasswordToken`, persist, and send the email; when
sending fails, clear the same properties, persist again, and respond 500.
`resetTok` models the fresh `crypto.randomBytes(20)` value. NOTE: the
effective (second, overriding) `getResetPasswordToken` of part_004 lines
369-377 assigns `this.resetPasswordToken`/`this.resetPasswordExpire`, which
are NOT paths of the userSchema (it defines
`passwordResetToken`/`passwordResetExpires`); under default mongoose strict
mode `user.save()` drops assignments to non-schema paths, so the sha256
digest of the issued reset token is never persisted anywhere: both saves
leave the stored document unchanged, while the response still reports
success. -/
def forgotPassword (db : UserDb) (_nowMs : Nat) (email : String) (_resetTok : String)
    (emailOk : Bool) : UserDb × SimpleOut :=
  match findByEmail db email with
  | none => (db, .err (ApiError.mk (.s "There is no user with that email") (.n 404)))
  | some u =>
    let db2 := saveUser db u
    if emailOk then (db2, .okMsg 200 "Email sent")
    else (saveUser db2 u, .err (ApiError.mk (.s "Email could not be sent") (.n 500)))

/-- authController.js lines 219-246 `resetPassword`. authController.js never
requires `crypto` (and where node provides a global `crypto` it is WebCrypto,
which has no `createHash`), so the `crypto.createHash` call on line 222
throws on EVERY invocation, before any user lookup; the catch forwards the
raw error to `next`, and the global error handler, finding no `statusCode`
on it, reports 500. The find-and-reset body below line 226 is unreachable
(it would also query the non-schema paths
`resetPasswordToken`/`resetPasswordExpire`, see `forgotPassword`). -/
def resetPassword (db : UserDb) (_nowMs : Nat) (_tokenParam _newPassword : String) : CtrlResult :=
  ⟨db, .raise⟩

def isAsciiLower (c : Char) : Bool := 'a' ≤ c && c ≤ 'z'

def isAsciiUpper (c : Char) : Bool := 'A' ≤ c && c ≤ 'Z'

def isAsciiLetter (c : Char) : Bool := isAsciiLower c || isAsciiUpper c

def isAsciiDigit (c : Char) : Bool := '0' ≤ c && c ≤ '9'

def pwSpecialChars : List Char := ['@', '$', '!', '%', '*', '?', '&']

def pwAllowedChar (c : Char) : Bool :=
  isAsciiLetter c || isAsciiDigit c || pwSpecialChars.contains c

/-- The password validator of part_004 (lines 39-46, together with the
minlength 8 constraint): the regex
`(?=.*[a-z])(?=.*[A-Z])(?=.*[0-9])(?=.*[@$!%*?&])[A-Za-z0-9@$!%*?&]{8,}`
anchored on both sides. -/
def passwordPatternOk (s : String) : Bool :=
  s.data.any isAsciiLower && s.data.any isAsciiUpper && s.data.any isAsciiDigit &&
  s.data.any (fun c => pwSpecialChars.contains c) &&
  s.data.all pwAllowedChar && decide (8 ≤ s.data.length)

/-- Splitting a character list at every occurrence of one character
(used to implement the email regex of part_004 executably). -/
def splitOnChar (c : Char) : List Char → List (List Char)
  | [] => [[]]
  | x :: xs =>
    let r := splitOnChar c xs
    if x == c then [] :: r
    else
      match r with
      | [] => [[x]]
      | y :: ys => (x :: y) :: ys

def emailLocalChar (c : Char) : Bool :=
  isAsciiLetter c || isAsciiDigit c || ['.', '_', '%', '+', '-'].contains c

def emailDomainChar (c : Char) : Bool :=
  isAsciiLetter c || isAsciiDigit c || ['.', '-'].contains c

/-- The email validator of part_004 (lines 24-27): the anchored regex
`[A-Za-z0-9._%+-]+ @ [A-Za-z0-9.-]+ \. [A-Za-z]{2,}`. Equivalently: exactly
one at-sign; nonempty local part over the local class; the domain splits at
its last dot into a nonempty prefix over the domain class and a trailing
label of at least two letters. -/
def emailPatternOk (s : String) : Bool :=
  match splitOnChar '@' s.data with
  | [loc, dom] =>
    decide (loc ≠ []) && loc.all emailLocalChar &&
    (let parts := splitOnChar '.' dom
     let tld := parts.getLastD []
     let pre := parts.dropLast
     decide (2 ≤ parts.length) && decide (pre.head? ≠ some []) &&
     (pre.all fun p => p.all emailDomainChar) &&
     decide (2 ≤ tld.length) && tld.all isAsciiLetter)
  | _ => false

def lowerStr (s : String) : String := String.mk (s.data.map Char.toLower)

/-- The name validator of part_004 (required, maxlength 50). -/
def nameOk (s : String) : Bool := s != "" && decide (s.data.length ≤ 50)

def roleEnum : List String := ["user", "publisher", "admin"]

/-- authController.js line 14: `role: req.body.role || "user"` — the role
comes straight from the unauthenticated request body, with the JS-falsy
default. -/
def roleFromBody (role? : Option String) : String :=
  match role? with
  | some r => if r == "" then "user" else r
  | none => "user"

inductive CreateResult where
  | created (u : UserDoc)
  | validationError
  | duplicateEmail
deriving DecidableEq, Repr

/-- Models `User.create({name, email, password, role})` against the schema of
part_004: mongoose lowercases the email, runs the validators (name required
and at most 50 chars, email regex, password regex with minlength 8, role in
the enum `[user, publisher, admin]`), enforces email uniqueness, and the
pre-save hook bcrypt-hashes the password. The `passwordChangedAt` hook is
skipped for new documents (`this.isNew`). Surrounding-whitespace trimming is
not modelled; the embedding is applied to untrimmed-equal inputs. -/
def userCreate (db : UserDb) (newId name email password role : String) : CreateResult :=
  let emailNorm := lowerStr email
  if !(nameOk name) then .validationError
  else if !(emailPatternOk emailNorm) then .validationError
  else if !(passwordPatternOk password) then .validationError
  else if !(roleEnum.contains role) then .validationError
  else if (findByEmail db emailNorm).isSome then .duplicateEmail
  else .created
    { id := newId, name := name, email := emailNorm,
      password := bcryptHash password, role := role,
      isEmailVerified := false, isActive := true,
      failedLoginAttempts := 0, accountLockedUntil := none,
      refreshToken := none, refreshTokenExpire := none,
      passwordResetToken := none, passwordResetExpires := none,
      emailVerificationToken := none, emailVerificationExpires := none,
      passwordChangedAt := none, lastLogin := none }

/-- authController.js lines 6-38 `register`: create the user with the role
taken from the request body (route registered BEFORE `router.use(protect)`,
so the request is unauthenticated), generate the email-verification token
(the effective second method definition of part_004; the pre-save hook sets
the 24h expiry), persist, send the verification email, and on success answer
201 through `sendTokenResponse`; an email failure clears the token and
responds 500. Validation and duplicate errors propagate through `next`; the
production error handler maps both to status 400. -/
def register (db : UserDb) (nowMs : Nat) (name email password : String)
    (role? : Option String) (newId verifTok freshTok : String)
    (emailOk saveTokOk : Bool) : CtrlResult :=
  match userCreate db newId name email password (roleFromBody role?) with
  | .validationError => ⟨db, .err (ApiError.mk (.n 400) (.s "Invalid input data")) false⟩
  | .duplicateEmail => ⟨db, .err (ApiError.mk (.n 400) (.s "Duplicate field value")) false⟩
  | .created u =>
    let u2 := { u with emailVerificationToken := some (sha256Hex verifTok),
                       emailVerificationExpires := some (nowMs + 24 * 60 * 60 * 1000) }
    let db2 := db ++ [u2]
    if emailOk then
      sendTokenResponse db2 u2 201 nowMs freshTok saveTokOk
    else
      let u3 := { u2 with emailVerificationToken := none }
      ⟨saveUser db2 u3, .err (ApiError.mk (.s "Email could not be sent") (.n 500)) false⟩

/-- An axios error as the two client response interceptors see it:
the response status (if any), the original request URL (`error.config.url`)
and its `_retry` marker. -/
structure AxiosErr where
  status : Option Nat
  url : String
  retried : Bool
deriving DecidableEq, Repr

/-- `url.includes("/auth/")`. -/
def listStartsWith : List Char → List Char → Bool
  | [], _ => true
  | _ :: _, [] => false
  | p :: ps, x :: xs => p == x && listStartsWith ps xs

def listOccurs (pat : List Char) : List Char → Bool
  | [] => listStartsWith pat []
  | x :: xs => listStartsWith pat (x :: xs) || listOccurs pat xs

def containsAuthSegment (url : String) : Bool :=
  listOccurs ("/auth/".data) url.data

/-- Decision of the axios-module response error interceptor (the file
concatenated into src/client/src/lib, lines 81-140): on a 401 of a request
not yet retried, auth-endpoint URLs are rejected with the SAME error object
(`return Promise.reject(error)`); other URLs are marked retried, a refresh is
posted and the request replayed. All remaining paths reject with a wrapped
plain object (no `response`/`config` fields). -/
inductive LibDecision where
  | rejectSame
  | refreshAndReplay
  | rejectWrapped
deriving DecidableEq, Repr

def libInterceptorOnError (e : AxiosErr) : LibDecision :=
  if e.status == some 401 && !e.retried then
    if containsAuthSegment e.url then .rejectSame
    else .refreshAndReplay
  else .rejectWrapped

/-- Decision of the AuthContext response error interceptor
(src/client/src/contexts/AuthContext.tsx lines 135-159). NOTE: unlike the
axios-module interceptor it has NO auth-endpoint URL check: any
not-yet-retried 401 is marked retried, a refresh is invoked, and the request
replayed when the refresh succeeds. -/
inductive ACDecision where
  | reject
  | refreshThenReplay
deriving DecidableEq, Repr

def authContextOnError (e : AxiosErr) : ACDecision :=
  if e.status != some 401 || e.retried then .reject
  else .refreshThenReplay

/-- Axios runs response interceptors in registration order: the axios-module
one first, then the AuthContext one receives whatever the first rejected
with. When the first rejects the same error (its auth-endpoint branch) the
AuthContext handler decides on that error; when it rejects the wrapped plain
object, the AuthContext condition reads `error.response?.status` as
undefined and rejects; when the first itself refreshes, a refresh attempt
happens either way. -/
def chainDecision (e : AxiosErr) : ACDecision :=
  match libInterceptorOnError e with
  | .rejectSame => authContextOnError e
  | .refreshAndReplay => .refreshThenReplay
  | .rejectWrapped => .reject

/-! ### Concrete documents used by the concrete evaluations -/

/-- A persisted, verified, active user whose password is `Correct1!`. -/
def danaUser : UserDoc :=
  { id := "u1", name := "Dana", email := "dana@example.com",
    password := bcryptHash "Correct1!", role := "user",
    isEmailVerified := true, isActive := true,
    failedLoginAttempts := 0, accountLockedUntil := none,
    refreshToken := none, refreshTokenExpire := none,
    passwordResetToken := none, passwordResetExpires := none,
    emailVerificationToken := none, emailVerificationExpires := none,
    passwordChangedAt := none, lastLogin := none }

/-- Like `danaUser` but deactivated. -/
def inactiveUser : UserDoc :=
  { danaUser with id := "u2", email := "ina@example.com", isActive := false }

/-- Like `danaUser` but with an unverified email. -/
def unverifiedUser : UserDoc :=
  { danaUser with id := "u3", email := "unv@example.com", isEmailVerified := false }

/-- `danaUser` holding the digest of the refresh token `rt-old`, unexpired
until epoch millisecond 999999. -/
def rotUser : UserDoc :=
  { danaUser with refreshToken := some (sha256Hex "rt-old"),
                  refreshTokenExpire := some 999999 }

/-- The store after `k` consecutive logins with the wrong password
`WrongPass9$` against `danaUser`. -/
def loginWrongTimes : Nat → UserDb
  | 0 => [danaUser]
  | k + 1 =>
    (login (loginWrongTimes k) 0 (some "dana@example.com") (some "WrongPass9$")
      "fresh" true true).db

/-! ### Claim theorems -/

/-- Claim C2 (code bug): the spec requires that after exactly 5 consecutive
failed login attempts the account is locked for 30 minutes and a 6th attempt
with correct credentials still fails. The login controller, however, never
reads or writes `accountLockedUntil` (the model methods `isAccountLocked` and
`incrementLoginAttempts` of part_004 are dead code): after 5 consecutive
wrong-password logins the stored counter is 5 and no lock is set, and an
immediately following correct-credential login succeeds. -/
theorem login_never_locks_after_five_failures :
    (findByEmail (loginWrongTimes 5) "dana@example.com").map
        (fun u => (u.failedLoginAttempts, u.accountLockedUntil)) = some (5, none) ∧
    (login (loginWrongTimes 5) 100000 (some "dana@example.com") (some "Correct1!")
        "fresh6" true true).out.isOkSession = true := by
  decide

/-- Claim C4 (code bug): the spec requires that a 401 from an authentication
endpoint is never retried and that no request triggers more than one refresh
attempt. The axios-module interceptor honours this (`rejectSame` on auth
URLs), but the AuthContext interceptor, which runs next on the same rejected
error, has no auth-endpoint check: a not-yet-retried 401 from `/auth/login`
is marked retried and triggers a refresh; even a 401 from
`/auth/refresh-token` itself triggers a further refresh attempt, seeding an
unbounded recursion while the server keeps answering 401. -/
theorem client_retries_auth_endpoint_401 :
    libInterceptorOnError ⟨some 401, "/auth/login", false⟩ = .rejectSame ∧
    authContextOnError ⟨some 401, "/auth/login", false⟩ = .refreshThenReplay ∧
    chainDecision ⟨some 401, "/auth/login", false⟩ = .refreshThenReplay ∧
    chainDecision ⟨some 401, "/auth/refresh-token", false⟩ = .refreshThenReplay := by
  decide

/-- Claim C5 (code bug): the spec requires that a refresh token is never
reported as issued unless its hash was durably persisted. Because the
`user.save()` inside `sendTokenResponse` is not awaited, a login whose
token-persisting save fails still answers with a success session reporting
the fresh refresh token, while the stored user record keeps no refresh-token
hash at all. -/
theorem login_reports_success_without_persisted_hash :
    (let r := login [danaUser] 5000 (some "dana@example.com") (some "Correct1!")
        "fresh5" true false
     r.out.isOkSession = true ∧
     r.out.reportedRefreshToken = some "fresh5" ∧
     (findByEmail r.db "dana@example.com").map (fun u => u.refreshToken) = some none) := by
  decide

/-- Claim C6 (code bug): the spec says bad credentials, a locked account, an
inactive account, and an unverified email each fail with HTTP 401. The login
controller constructs every such `ApiError` with the arguments swapped
(message first, although the constructor is `(statusCode, message)`), so the
`statusCode` field holds the message string and the error handler has no
numeric 401 to emit (a locked-account failure cannot occur at all, see C2). -/
theorem login_failures_statusCode_not_401 :
    (login [danaUser] 0 (some "dana@example.com") (some "BadPass1@") "f" true true).out
      = .err (ApiError.mk (.s "Invalid credentials") (.n 401)) false ∧
    (login [] 0 (some "dana@example.com") (some "Correct1!") "f" true true).out
      = .err (ApiError.mk (.s "Invalid credentials") (.n 401)) false ∧
    (login [inactiveUser] 0 (some "ina@example.com") (some "Correct1!") "f" true true).out
      = .err (ApiError.mk (.s "Your account has been deactivated") (.n 401)) false ∧
    (login [unverifiedUser] 0 (some "unv@example.com") (some "Correct1!") "f" true true).out
      = .err (ApiError.mk (.s "Please verify your email before logging in") (.n 401)) false ∧
    httpStatusOf (ApiError.mk (.s "Invalid credentials") (.n 401)) = none ∧
    httpStatusOf (ApiError.mk (.s "Your account has been deactivated") (.n 401)) = none ∧
    httpStatusOf (ApiError.mk (.s "Please verify your email before logging in") (.n 401)) = none := by
  decide

/-- Claim C1 counterexample: the FIRST presentation of a currently-valid,
stored, unexpired refresh token to the dedicated refresh controller does not
yield a new token pair at all: authController.js never requires `crypto`, so
the controller throws at the digest computation and answers through its
catch block — cookies cleared, `ApiError("Failed to refresh token", 500)`
(message-first), store unchanged. -/
theorem refresh_controller_first_presentation_fails :
    (refreshTokenController [rotUser] none (some "rt-old")).out
      = .err (ApiError.mk (.s "Failed to refresh token") (.n 500)) true ∧
    (refreshTokenController [rotUser] none (some "rt-old")).out.isOkSession = false ∧
    (refreshTokenController [rotUser] none (some "rt-old")).db = [rotUser] ∧
    rotUser.refreshToken = some (sha256Hex "rt-old") := by
  decide

/-- Claim C3 counterexample: a request presenting a currently-valid refresh
token in the request body only, with no access token and no cookies, does
NOT get a new session from POST /auth/refresh-token: the route is mounted
after `router.use(protect)`, and the gate denies it with its no-token 401
before the controller can run. -/
theorem refresh_endpoint_body_only_denied :
    (refreshTokenEndpoint [rotUser] 1000
        ⟨none, none, none, some "rt-old", some "application/json"⟩ "f" true).out
      = .err (ApiError.mk (.n 401) (.s "Not authorized to access this route - No token")) false ∧
    (refreshTokenEndpoint [rotUser] 1000
        ⟨none, none, none, some "rt-old", some "application/json"⟩ "f" true).out.isOkSession
      = false ∧
    authRouteProtected "/refresh-token" = true := by
  decide

/-- Claim C7 counterexample: on the server gate path with no access token and
a valid refresh cookie, when the Accept header is exactly
`application/json` (what the SPA client always sends) the middleware answers
the original request with the new tokens itself instead of proceeding: the
caller does observe the renewal as the response. -/
theorem gate_renewal_json_responds_instead_of_proceeding :
    (protect [rotUser] 1000 ⟨none, none, some "rt-old", none, some "application/json"⟩
        "f" true).out.isProceed = false ∧
    (protect [rotUser] 1000 ⟨none, none, some "rt-old", none, some "application/json"⟩
        "f" true).out.isSession = true := by
  decide

/-- Claim C8 counterexample: a password change one millisecond AFTER the
access token was issued does not invalidate the token: the pre-save hook
backdates `passwordChangedAt` by one second and both sides are truncated to
whole seconds, so the verifier still proceeds with the old token. -/
theorem token_accepted_after_password_change_one_ms_later :
    (1000000 : Nat) < 1000001 ∧
    (protect [applyPasswordChangeHooks danaUser "NewPass1@" 1000001] 1200000
        ⟨some (getSignedJwtToken danaUser 1000000), none, none, none, none⟩ "f" true).out
      = .proceed (applyPasswordChangeHooks danaUser "NewPass1@" 1000001) := by
  decide

/-- Helper: a rotation through the middleware against a single-user store
holding the digest of the presented cookie token, unexpired, with a
succeeding save: the store ends with the rotated document, and the outcome
is a direct session response exactly when the Accept header is
`application/json`, otherwise a proceed. -/
theorem refreshMiddleware_single_success (u : UserDoc) (t f : String) (e nowMs : Nat)
    (req : SrvReq) (hcookie : req.cookieRefreshToken = some t) (hne0 : t ≠ "")
    (hstore : u.refreshToken = some (sha256Hex t)) (hexp : u.refreshTokenExpire = some e)
    (hnow : nowMs < e) :
    refreshMiddleware [u] nowMs req f true
      = if req.acceptHeader == some "application/json" then
          ⟨[(getRefreshToken u f nowMs).1],
            .session 200 (getSignedJwtToken u nowMs) f ((getRefreshToken u f nowMs).1)⟩
        else
          ⟨[(getRefreshToken u f nowMs).1], .proceed ((getRefreshToken u f nowMs).1)⟩ := by
  have hne0b : (t == "") = false := beq_eq_false_iff_ne.mpr hne0
  simp [refreshMiddleware, hcookie, hne0b, findByRefreshHash, List.find?, hstore, hexp,
    expireAfter, hnow, saveUser, getRefreshToken]

/-- Claim C1 (amended): single-use rotation holds on the only reachable
rotation path, the part_007 gate middleware (whose module does require
`crypto`): the first presentation of a stored, unexpired refresh cookie
rotates once — the new digest is persisted and, for Accept
`application/json`, a brand-new access/refresh pair is returned — and a
second presentation of the same cookie, at any later clock and with any
fresh randomness, is denied 401 with the invalid-or-expired-refresh-token
`ApiError` (correct argument order in part_007). The dedicated refresh
controller, by contrast, fails 500 on every presented token because
authController.js never requires `crypto`. -/
theorem refresh_rotation_single_use_via_gate (u : UserDoc) (tOld fNew fNew2 : String)
    (e nowMs nowMs2 : Nat) (req req2 : SrvReq)
    (hne0 : tOld ≠ "")
    (hcook : req.cookieRefreshToken = some tOld)
    (hacc : req.acceptHeader = some "application/json")
    (hcook2 : req2.cookieRefreshToken = some tOld)
    (hstore : u.refreshToken = some (sha256Hex tOld))
    (hexp : u.refreshTokenExpire = some e)
    (hnow : nowMs < e)
    (hfresh : fNew ≠ tOld) :
    refreshMiddleware [u] nowMs req fNew true
      = ⟨[(getRefreshToken u fNew nowMs).1],
          .session 200 (getSignedJwtToken u nowMs) fNew ((getRefreshToken u fNew nowMs).1)⟩ ∧
    ((getRefreshToken u fNew nowMs).1).refreshToken = some (sha256Hex fNew) ∧
    (refreshMiddleware [(getRefreshToken u fNew nowMs).1] nowMs2 req2 fNew2 true).out
      = .deny (ApiError.mk (.n 401) (.s "Invalid or expired refresh token")) true ∧
    (refreshTokenController [u] none (some tOld)).out
      = .err (ApiError.mk (.s "Failed to refresh token") (.n 500)) true := by
  have hne0b : (tOld == "") = false := beq_eq_false_iff_ne.mpr hne0
  have hshane : (sha256Hex fNew == sha256Hex tOld) = false :=
    beq_eq_false_iff_ne.mpr (sha256Hex_ne hfresh)
  refine ⟨?_, rfl, ?_, ?_⟩
  · have hmw := refreshMiddleware_single_success u tOld fNew e nowMs req hcook hne0
      hstore hexp hnow
    rw [hacc] at hmw
    simpa using hmw
  · simp [refreshMiddleware, hcook2, hne0b, findByRefreshHash, List.find?,
      getRefreshToken, hshane]
  · simp [refreshTokenController, jsOr, hne0b]

/-- Witness for C1 at `rotUser`, cookie token `rt-old`, fresh values
`rt-new` and `rt-new2`: reusing `rt-old` after its rotation by the gate is
denied 401. -/
theorem refresh_rotation_single_use_via_gate_witness :
    (refreshMiddleware [(getRefreshToken rotUser "rt-new" 1000).1] 2000
        ⟨none, none, some "rt-old", none, some "application/json"⟩ "rt-new2" true).out
      = .deny (ApiError.mk (.n 401) (.s "Invalid or expired refresh token")) true :=
  (refresh_rotation_single_use_via_gate rotUser "rt-old" "rt-new" "rt-new2" 999999 1000 2000
    ⟨none, none, some "rt-old", none, some "application/json"⟩
    ⟨none, none, some "rt-old", none, some "application/json"⟩
    (by decide) rfl rfl rfl (by decide) (by decide) (by decide) (by decide)).2.2.1

/-- Claim C3 (amended): POST /auth/refresh-token is NOT public — it is
mounted after `router.use(protect)`. A request presenting a currently-valid
refresh token only in the request body, with no access token and no refresh
cookie, is denied 401 by the gate without any rotation; a request carrying
the valid refresh token as a cookie and no access token is rotated by the
gate itself, which (for Accept exactly `application/json`) returns the new
session directly. -/
theorem refresh_endpoint_gate_behavior (u : UserDoc) (t f : String) (e nowMs : Nat)
    (hne0 : t ≠ "")
    (hstore : u.refreshToken = some (sha256Hex t))
    (hexp : u.refreshTokenExpire = some e)
    (hnow : nowMs < e) :
    (refreshTokenEndpoint [u] nowMs ⟨none, none, none, some t, some "application/json"⟩
        f true).out
      = .err (ApiError.mk (.n 401) (.s "Not authorized to access this route - No token")) false ∧
    (refreshTokenEndpoint [u] nowMs ⟨none, none, some t, none, some "application/json"⟩
        f true).out
      = .okSession 200 (getSignedJwtToken u nowMs) f ((getRefreshToken u f nowMs).1) := by
  have hne0b : (t == "") = false := beq_eq_false_iff_ne.mpr hne0
  constructor
  · rfl
  · have hmw := refreshMiddleware_single_success u t f e nowMs
      ⟨none, none, some t, none, some "application/json"⟩ rfl hne0 hstore hexp hnow
    simp only [beq_self_eq_true, if_true] at hmw
    simp [refreshTokenEndpoint, protect, truthyStr, hne0b, hne0, hmw]

/-- Witness for C3 at `rotUser` and token `rt-old`. -/
theorem refresh_endpoint_gate_behavior_witness :
    (refreshTokenEndpoint [rotUser] 1000
        ⟨none, none, some "rt-old", none, some "application/json"⟩ "f" true).out
      = .okSession 200 (getSignedJwtToken rotUser 1000) "f"
          ((getRefreshToken rotUser "f" 1000).1) :=
  (refresh_endpoint_gate_behavior rotUser "rt-old" "f" 999999 1000
    (by decide) (by decide) (by decide) (by decide)).2

/-- Claim C7 (amended): on the server gate path with an absent access token,
or an expired one with matching secret/issuer/audience, and a valid refresh
cookie, the gate rotates and proceeds with the newly authenticated (rotated)
user attached — but only when the Accept header is NOT exactly
`application/json`; when it is, the middleware answers the request itself
(see the counterexample). -/
theorem gate_renewal_proceeds_when_accept_not_json (u : UserDoc) (t f : String)
    (e nowMs : Nat) (req : SrvReq)
    (hcookie : req.cookieRefreshToken = some t) (hne0 : t ≠ "")
    (hstore : u.refreshToken = some (sha256Hex t))
    (hexp : u.refreshTokenExpire = some e)
    (hnow : nowMs < e)
    (haccept : req.acceptHeader ≠ some "application/json")
    (htok : (req.bearerToken = none ∧ req.cookieAccessToken = none) ∨
      (∃ p, req.bearerToken
          = some (AccessToken.signed p accessTokenSecret jwtIssuer jwtAudience) ∧
        p.exp ≤ nowMs / 1000)) :
    protect [u] nowMs req f true
      = ⟨[(getRefreshToken u f nowMs).1], .proceed ((getRefreshToken u f nowMs).1)⟩ := by
  have hne0b : (t == "") = false := beq_eq_false_iff_ne.mpr hne0
  have haccb : (req.acceptHeader == some "application/json") = false :=
    beq_eq_false_iff_ne.mpr haccept
  have hmw := refreshMiddleware_single_success u t f e nowMs req hcookie hne0 hstore hexp hnow
  rw [haccb] at hmw
  simp only [if_false, Bool.false_eq_true] at hmw
  rcases htok with ⟨hb, hc⟩ | ⟨p, hb, hexpd⟩
  · simp [protect, hb, hc, truthyStr, hcookie, hne0b, hne0, hmw]
  · simp [protect, hb, jwtVerify, hexpd, truthyStr, hcookie, hne0b, hne0, hmw]

/-- Witness for C7: absent access token, valid refresh cookie, Accept
`text/html`. -/
theorem gate_renewal_proceeds_when_accept_not_json_witness :
    protect [rotUser] 1000
        ⟨none, none, some "rt-old", none, some "text/html"⟩ "f" true
      = ⟨[(getRefreshToken rotUser "f" 1000).1], .proceed ((getRefreshToken rotUser "f" 1000).1)⟩ :=
  gate_renewal_proceeds_when_accept_not_json rotUser "rt-old" "f" 999999 1000
    ⟨none, none, some "rt-old", none, some "text/html"⟩ rfl (by decide) (by decide)
    (by decide) (by decide) (by decide) (Or.inl ⟨rfl, rfl⟩)

/-- Claim C8 (amended): an access token is rejected by the verifier with the
password-change 401 whenever the password change happens at least TWO
seconds after the token was issued (the pre-save hook backdates
`passwordChangedAt` by one second and both clocks truncate to whole
seconds); a change less than two seconds after issue can leave the token
accepted (see the counterexample). -/
theorem password_change_two_seconds_later_rejects_token (u : UserDoc)
    (newPw f : String) (issueMs changeMs verifyMs : Nat)
    (hactive : u.isActive = true)
    (hchange : issueMs + 2000 ≤ changeMs)
    (hlive : verifyMs / 1000 < issueMs / 1000 + accessTokenExpiresSec) :
    (protect [applyPasswordChangeHooks u newPw changeMs] verifyMs
        ⟨some (getSignedJwtToken u issueMs), none, none, none, none⟩ f true).out
      = .deny (ApiError.mk (.n 401)
          (.s "User recently changed password. Please log in again")) false := by
  have hnotexp : ¬ (issueMs / 1000 + accessTokenExpiresSec ≤ verifyMs / 1000) :=
    Nat.not_le.mpr hlive
  have hiat : issueMs / 1000 < (changeMs - 1000) / 1000 := by
    have h1 : issueMs + 1000 ≤ changeMs - 1000 := by omega
    have h2 : (issueMs + 1000) / 1000 ≤ (changeMs - 1000) / 1000 :=
      Nat.div_le_div_right h1
    have h3 : (issueMs + 1000) / 1000 = issueMs / 1000 + 1 :=
      Nat.add_div_right issueMs (by norm_num)
    omega
  simp [protect, getSignedJwtToken, jwtVerify, hnotexp, findById, List.find?,
    applyPasswordChangeHooks, hactive, hiat]

/-- Witness for C8: change 3 seconds after issue, verification while the
token is otherwise still live. -/
theorem password_change_two_seconds_later_rejects_token_witness :
    (protect [applyPasswordChangeHooks danaUser "NewPass1@" 1003000] 1200000
        ⟨some (getSignedJwtToken danaUser 1000000), none, none, none, none⟩ "f" true).out
      = .deny (ApiError.mk (.n 401)
          (.s "User recently changed password. Please log in again")) false :=
  password_change_two_seconds_later_rejects_token danaUser "NewPass1@" "f"
    1000000 1003000 1200000 (by decide) (by decide) (by decide)

/-- Claim C9 (code bug): the password-reset round trip always fails.
`forgotPassword` responds 200 "Email sent", but the effective (second,
overriding) `getResetPasswordToken` writes only the non-schema properties
`resetPasswordToken`/`resetPasswordExpire`, which strict-mode `save()`
drops: the persisted store is unchanged and holds no reset digest under any
field (in particular the schema field `passwordResetToken` stays empty).
`resetPassword`, in turn, throws at its `crypto.createHash` call (`crypto`
is never required in authController.js) before any lookup, and the raw
error is reported as a 500. -/
theorem reset_round_trip_always_fails :
    forgotPassword [danaUser] 0 "dana@example.com" "rstTok" true
      = ([danaUser], .okMsg 200 "Email sent") ∧
    (findByEmail [danaUser] "dana@example.com").map (fun u => u.passwordResetToken)
      = some none ∧
    (resetPassword [danaUser] 500000 "rstTok" "NewPass1@").out = .raise ∧
    handlerStatusOf (resetPassword [danaUser] 500000 "rstTok" "NewPass1@").out = some 500 ∧
    (resetPassword [danaUser] 500000 "rstTok" "NewPass1@").db = [danaUser] := by
  decide

/-- Claim C10 (confirmed): the public registration endpoint (mounted before
`router.use(protect)`) creates the account with whatever role the request
body supplies, as long as it is one of the schema enum `user`, `publisher`,
`admin`, and defaults to `user` when the body omits the role; in particular
an unauthenticated registration carrying role `admin` creates an admin
account (see the witness). -/
theorem register_uses_role_from_body (nowMs : Nat) (nm em pw r newId vt ft : String)
    (hn : nameOk nm = true)
    (he : emailPatternOk (lowerStr em) = true)
    (hp : passwordPatternOk pw = true)
    (hr : roleEnum.contains r = true)
    (hre : r ≠ "") :
    roleFromBody none = "user" ∧
    authRouteProtected "/register" = false ∧
    (register [] nowMs nm em pw (some r) newId vt ft true true).out.isOkSession = true ∧
    (findByEmail (register [] nowMs nm em pw (some r) newId vt ft true true).db
        (lowerStr em)).map (fun v => v.role) = some r := by
  have hreb : (r == "") = false := beq_eq_false_iff_ne.mpr hre
  have hrole : roleFromBody (some r) = r := by simp [roleFromBody, hreb]
  have hmem : r ∈ roleEnum := by simpa using hr
  refine ⟨rfl, rfl, ?_, ?_⟩
  · simp [register, hrole, userCreate, hn, he, hp, hmem, findByEmail, List.find?,
      sendTokenResponse, saveUser, getRefreshToken, CtrlOut.isOkSession]
  · simp [register, hrole, userCreate, hn, he, hp, hmem, findByEmail, List.find?,
      sendTokenResponse, saveUser, getRefreshToken]

/-- Witness for C10: an unauthenticated registration with body role `admin`
produces an account whose stored role is `admin`. -/
theorem register_uses_role_from_body_witness :
    (findByEmail (register [] 0 "Ada" "ada@example.com" "Passw0rd!" (some "admin")
        "id1" "vt" "ft" true true).db (lowerStr "ada@example.com")).map (fun v => v.role)
      = some "admin" :=
  (register_uses_role_from_body 0 "Ada" "ada@example.com" "Passw0rd!" "admin" "id1" "vt" "ft"
    (by decide) (by decide) (by decide) (by decide) (by decide)).2.2.2

end MernAuth
